import Mathlib

/-!
Shallow embedding of the HokiePlate VT dining scraper (src/scraper1.py) and the
AI-digest formatter (src/app1.py), together with theorems settling the frozen
claims about them.  Network and HTML-parsing effects are abstracted into
explicit environment values (fetch outcomes, flattened document-node sequences);
all pure computation (string splitting, the ordered regular-expression fallback
chains, truncation, retry bookkeeping, tag derivation) is translated directly
from the Python source.
-/

namespace VTDining

/-! ### Python string primitives -/

/-- str.lower restricted to the ASCII text this pipeline handles. -/
def lowerStr (s : String) : String :=
  String.mk (s.toList.map Char.toLower)

/-- The characters matched by the regex class backslash-s. -/
def isWsp (c : Char) : Bool :=
  c = ' ' || c = '\t' || c = '\n' || c = '\r' || c = '\x0b' || c = '\x0c'

/-- The regex character class matching a colon or hyphen. -/
def isColonDash (c : Char) : Bool :=
  c = ':' || c = '-'

/-- Case-insensitive single-character test used for literal letters under
re.IGNORECASE: the stored pattern character is lowercase. -/
def litP (ch : Char) : Char → Bool :=
  fun c => c.toLower = ch

def isPrefixB : List Char → List Char → Bool
  | [], _ => true
  | _ :: _, [] => false
  | p :: ps, c :: cs => p = c && isPrefixB ps cs

def isInfixB (needle : List Char) : List Char → Bool
  | [] => isPrefixB needle []
  | c :: cs => isPrefixB needle (c :: cs) || isInfixB needle cs

/-- Python substring containment: `needle in hay`. -/
def strContains (hay needle : String) : Bool :=
  isInfixB needle.toList hay.toList

/-- Left-to-right non-overlapping split on a non-empty separator given as head
and tail; acc holds the current field reversed.  The fuel argument (any bound
of the input length) keeps the recursion structural so the kernel can evaluate
it; with enough fuel the exhaustion branch is unreachable. -/
def splitOnGo (sc : Char) (srest : List Char) : Nat → List Char → List Char → List (List Char)
  | _, [], acc => [acc.reverse]
  | 0, cs, acc => [acc.reverse ++ cs]
  | fuel + 1, c :: cs, acc =>
    if isPrefixB (sc :: srest) (c :: cs) then
      acc.reverse :: splitOnGo sc srest fuel (cs.drop srest.length) []
    else splitOnGo sc srest fuel cs (c :: acc)

/-- Python str.split(sep) for a non-empty separator. -/
def pySplit (s sep : String) : List String :=
  match sep.toList with
  | [] => [s]
  | sc :: srest => (splitOnGo sc srest s.toList.length s.toList []).map String.mk

/-- Python str.strip(): whitespace removed from both ends. -/
def pyTrim (s : String) : String :=
  String.mk (((s.toList.dropWhile (fun c => isWsp c)).reverse.dropWhile
    (fun c => isWsp c)).reverse)

/-- Python str.startswith. -/
def pyStartsWith (s p : String) : Bool :=
  isPrefixB p.toList s.toList

def pyDedupAux : List String → List String → List String
  | [], acc => acc
  | x :: xs, acc => pyDedupAux xs (if x ∈ acc then acc else acc ++ [x])

/-- Models Python list(set(l)).  Python's set iteration order is unspecified, so
theorems about deduplicated results only use the underlying set of elements;
this model keeps first-occurrence order. -/
def pyDedup (l : List String) : List String :=
  pyDedupAux l []

/-- Python list slicing l[:n] for an int n (negative n drops from the end). -/
def pyTake (n : Int) (l : List α) : List α :=
  if 0 ≤ n then l.take n.toNat else l.take (l.length - (-n).toNat)

def pyTitleAux : List Char → Bool → List Char
  | [], _ => []
  | c :: cs, prevAlpha =>
    (if prevAlpha then c.toLower else c.toUpper) :: pyTitleAux cs c.isAlpha

/-- str.title restricted to ASCII: uppercase a letter that follows a
non-letter, lowercase the rest. -/
def pyTitle (s : String) : String :=
  String.mk (pyTitleAux s.toList false)

def digitsVal (cs : List Char) : Nat :=
  cs.foldl (fun n c => n * 10 + (c.toNat - 48)) 0

/-- float() applied to a captured numeric string of shape digits, optional
point, digits. -/
def parseDec (s : String) : Rat :=
  match pySplit s "." with
  | [a] => (digitsVal a.toList : Rat)
  | [a, b] => (digitsVal a.toList : Rat) + (digitsVal b.toList : Rat) / ((10 : Rat) ^ b.length)
  | _ => 0

/-- Python round(x, 1): round half to even at one decimal place.  The binary
floating-point representation effects of CPython are not modelled; all values
this pipeline feeds in are short decimal literals. -/
def round1 (x : Rat) : Rat :=
  let y := x * 10
  let f : Int := ⌊y⌋
  let frac := y - (f : Rat)
  let r : Int :=
    if frac < 1 / 2 then f
    else if 1 / 2 < frac then f + 1
    else if f % 2 = 0 then f else f + 1
  (r : Rat) / 10

/-- Python repr of a float that is an exact multiple of 0.1 (the only float
values this pipeline produces after round(_, 1)). -/
def pyFloatRepr (v : Rat) : String :=
  if v.den = 1 then toString v.num ++ ".0"
  else
    let n : Int := ⌊v * 10⌋
    let sign := if n < 0 then "-" else ""
    sign ++ toString (n.natAbs / 10) ++ "." ++ toString (n.natAbs % 10)

/-- Formats nutrition.get(key, 0): the int default 0 when absent, float repr
when present. -/
def pyNumRepr (v : Option Rat) : String :=
  match v with
  | none => "0"
  | some x => pyFloatRepr x

/-- Python newline-join of a list of lines. -/
def joinLines (ls : List String) : String :=
  String.intercalate "\n" ls

/-! ### Regular-expression engine

The scraper's nutrition patterns are sequences of literal characters,
character classes with ?, * or + quantifiers, one optional non-capturing
group, one capturing group, and one literal alternation.  The matcher below
implements exactly re.search semantics for that fragment: leftmost start
position, greedy quantifiers with backtracking, IGNORECASE via lowercase
comparison on literals, group(1) returned as the captured original text. -/

inductive SAtom where
  | lit (c : Char)
  | cls (p : Char → Bool)
  | opt (p : Char → Bool)
  | star (p : Char → Bool)
  | plus (p : Char → Bool)
  | alts (ss : List String)

/-- Case-insensitive literal-prefix match returning the remaining input. -/
def ciPrefixRest : List Char → List Char → Option (List Char)
  | [], cs => some cs
  | _ :: _, [] => none
  | p :: ps, c :: cs => if c.toLower = p then ciPrefixRest ps cs else none

/-- Remaining inputs after each alternative of a literal alternation that
matches here, in alternation order (left preference). -/
def altRests (ss : List String) (cs : List Char) : List (List Char) :=
  ss.filterMap (fun s => ciPrefixRest s.toList cs)

/-- Greedy quantifier backtracking: try consuming n characters, then n-1, and
so on down to zero. -/
def tryDrops (cs : List Char) : Nat → (List Char → Option String) → Option String
  | 0, k => k cs
  | n + 1, k => (k (cs.drop (n + 1))).orElse (fun _ => tryDrops cs n k)

/-- Try continuation on each candidate rest in order (alternation preference). -/
def tryRests : List (List Char) → (List Char → Option String) → Option String
  | [], _ => none
  | r :: rs, f => (f r).orElse (fun _ => tryRests rs f)

def matchS : List SAtom → List Char → (List Char → Option String) → Option String
  | [], cs, k => k cs
  | .lit c :: as, cs, k =>
    match cs with
    | [] => none
    | d :: cs2 => if d.toLower = c then matchS as cs2 k else none
  | .cls p :: as, cs, k =>
    match cs with
    | [] => none
    | d :: cs2 => if p d then matchS as cs2 k else none
  | .opt p :: as, cs, k =>
    match cs with
    | [] => matchS as cs k
    | d :: cs2 =>
      if p d then (matchS as cs2 k).orElse (fun _ => matchS as cs k)
      else matchS as cs k
  | .star p :: as, cs, k =>
    tryDrops cs (cs.takeWhile p).length (fun rest => matchS as rest k)
  | .plus p :: as, cs, k =>
    match cs with
    | [] => none
    | d :: cs2 =>
      if p d then tryDrops cs2 (cs2.takeWhile p).length (fun rest => matchS as rest k)
      else none
  | .alts ss :: as, cs, k =>
    tryRests (altRests ss cs) (fun rest => matchS as rest k)

inductive PAtom where
  | simple (a : SAtom)
  | optSeq (as : List SAtom)
  | grp (as : List SAtom)

/-- Match a whole pattern at the current position; on success return the text
captured by the (unique) group. -/
def matchP2 : List PAtom → List Char → Option String → Option String
  | [], _, cap => some (cap.getD "")
  | .simple a :: ps, cs, cap =>
    matchS [a] cs (fun rest => matchP2 ps rest cap)
  | .optSeq as :: ps, cs, cap =>
    (matchS as cs (fun rest => matchP2 ps rest cap)).orElse (fun _ => matchP2 ps cs cap)
  | .grp as :: ps, cs, _cap =>
    matchS as cs (fun rest =>
      matchP2 ps rest (some (String.mk (cs.take (cs.length - rest.length)))))

/-- re.search: try the pattern at every start position, leftmost first. -/
def reSearch (ps : List PAtom) : List Char → Option String
  | [] => matchP2 ps [] none
  | c :: cs =>
    match matchP2 ps (c :: cs) none with
    | some s => some s
    | none => reSearch ps cs

/-- First pattern in the ordered list whose search succeeds wins; later
patterns are not tried. -/
def firstSearch : List (List PAtom) → List Char → Option String
  | [], _ => none
  | p :: rest, cs =>
    match reSearch p cs with
    | some s => some s
    | none => firstSearch rest cs

/-! ### The nutrition label patterns (scraper1.py lines 213-249) -/

def lits (s : String) : List SAtom :=
  s.toList.map SAtom.lit

def plits (s : String) : List PAtom :=
  (lits s).map PAtom.simple

/-- backslash-s star. -/
def pWsp : PAtom := .simple (.star isWsp)

/-- optional colon or hyphen. -/
def pOptColon : PAtom := .simple (.opt isColonDash)

/-- optional letter s. -/
def pOptS : PAtom := .simple (.opt (litP 's'))

def pLit (c : Char) : PAtom := .simple (.lit c)

/-- capture group for digits, optional point, digits. -/
def decGrp : PAtom :=
  .grp [.plus Char.isDigit, .opt (fun c => c = '.'), .star Char.isDigit]

/-- capture group for one-or-more digits. -/
def natGrp : PAtom :=
  .grp [.plus Char.isDigit]

/-- optional non-capturing group: the word total plus whitespace. -/
def pOptTotal : PAtom :=
  .optSeq (lits "total" ++ [.plus isWsp])

def calories_patterns : List (List PAtom) :=
  [ plits "calorie" ++ [pOptS, pWsp, pOptColon, pWsp, natGrp],
    [natGrp, pWsp] ++ plits "calorie" ++ [pOptS],
    plits "cal" ++ [pOptColon, pWsp, natGrp] ]

def protein_patterns : List (List PAtom) :=
  [ plits "protein" ++ [pWsp, pOptColon, pWsp, decGrp, pWsp, pLit 'g'],
    [decGrp, pWsp, pLit 'g', pWsp] ++ plits "protein",
    plits "prot" ++ [pOptColon, pWsp, decGrp, pWsp, pLit 'g'] ]

def carbs_patterns : List (List PAtom) :=
  [ [pOptTotal] ++ plits "carbohydrate" ++ [pWsp, pOptColon, pWsp, decGrp, pWsp, pLit 'g'],
    plits "carb" ++ [pOptS, pWsp, pOptColon, pWsp, decGrp, pWsp, pLit 'g'],
    [decGrp, pWsp, pLit 'g', pWsp] ++ plits "carb" ]

def fat_patterns : List (List PAtom) :=
  [ [pOptTotal] ++ plits "fat" ++ [pWsp, pOptColon, pWsp, decGrp, pWsp, pLit 'g'],
    [decGrp, pWsp, pLit 'g', pWsp] ++ plits "fat",
    plits "fat" ++ [pOptColon, pWsp, decGrp, pWsp, pLit 'g'] ]

def fiber_patterns : List (List PAtom) :=
  [ plits "dietary" ++ [.simple (.plus isWsp)] ++ plits "fiber" ++
      [pWsp, pOptColon, pWsp, decGrp, pWsp, pLit 'g'],
    plits "fiber" ++ [pWsp, pOptColon, pWsp, decGrp, pWsp, pLit 'g'],
    [decGrp, pWsp, pLit 'g', pWsp] ++ plits "fiber" ]

def sodium_patterns : List (List PAtom) :=
  [ plits "sodium" ++ [pWsp, pOptColon, pWsp, decGrp, pWsp] ++ plits "mg",
    [decGrp, pWsp] ++ plits "mg" ++ [pWsp] ++ plits "sodium",
    plits "salt" ++ [pWsp, pOptColon, pWsp, decGrp, pWsp] ++ plits "mg" ]

def sugars_patterns : List (List PAtom) :=
  [ [pOptTotal] ++ plits "sugar" ++ [pOptS, pWsp, pOptColon, pWsp, decGrp, pWsp, pLit 'g'],
    [decGrp, pWsp, pLit 'g', pWsp] ++ plits "sugar",
    plits "sugar" ++ [pOptColon, pWsp, decGrp, pWsp, pLit 'g'] ]

/-- serving size pattern list (scraper1.py lines 284-288). -/
def serving_patterns : List (List PAtom) :=
  [ plits "serving" ++ [pWsp] ++ plits "size" ++ [pWsp, pOptColon, pWsp,
      .grp [.plus (fun c => !(c = ',' || c = '\n'))]],
    plits "portion" ++ [pWsp, pOptColon, pWsp,
      .grp [.plus (fun c => !(c = ',' || c = '\n'))]],
    plits "size" ++ [pWsp, pOptColon, pWsp,
      .grp [.plus Char.isDigit, .opt (fun c => c = '.'), .star Char.isDigit,
            .star isWsp, .alts ["oz", "g", "ml", "cup", "piece"]]] ]

/-- The per-nutrient loop body: try patterns in order, first match parsed as a
number wins.  (float() cannot fail on these captures, so the ValueError
continue branch of the source is unreachable.) -/
def extractField (pats : List (List PAtom)) (cs : List Char) : Option Rat :=
  (firstSearch pats cs).map parseDec

/-- extract_serving_size (scraper1.py lines 282-295): first pattern that
matches wins, captured text stripped. -/
def extract_serving_size (text : String) : Option String :=
  (firstSearch serving_patterns text.toList).map pyTrim

/-! ### Data model -/

/-- A flattened HTML element, enough for the find-next traversal and the
class/text lookups the scraper performs. -/
structure PageNode where
  tag : String
  classes : List String
  text : String
deriving DecidableEq

/-- A fetched food-item detail page: its elements (in document order) and its
visible text. -/
structure ItemPage where
  nodes : List PageNode
  text : String
deriving DecidableEq

/-- The scraper's Nutrition record.  Absent keys of the Python dict are
modelled as none / empty. -/
structure Nutrition where
  calories : Option Int := none
  protein : Option Rat := none
  carbs : Option Rat := none
  fat : Option Rat := none
  fiber : Option Rat := none
  sodium : Option Rat := none
  sugars : Option Rat := none
  allergens : List String := []
  dietary_tags : List String := []
  serving_size : Option String := none
deriving DecidableEq

structure Hall where
  name : String
  location_num : String
  url : String
deriving DecidableEq

structure FoodItem where
  name : String
  url : String
  recipe_id : String
  nutrition : Option Nutrition := none
deriving DecidableEq

structure PeriodData where
  items : List FoodItem
  total_available : Nat
  scraped_count : Nat
deriving DecidableEq

structure HallData where
  name : String
  location_num : String
  url : String
  meal_periods : List (String × PeriodData)
  scrape_status : String
  error : Option String
  items_scraped : Option Nat
deriving DecidableEq

structure ScrapeSummary where
  total_halls : Nat
  successful_halls : Nat
  failed_halls : Nat
  total_items_scraped : Nat
deriving DecidableEq

structure ScraperConfig where
  max_items_per_meal : Int
  request_delay : Rat
deriving DecidableEq

structure Snapshot where
  dining_halls : List HallData
  scraper_config : ScraperConfig
  scrape_summary : ScrapeSummary
deriving DecidableEq

/-- An anchor element of the directory page: its href and title attributes
(title defaulting to the empty string, as link.get does). -/
structure Anchor where
  href : String
  title : String
deriving DecidableEq

/-! ### Allergens and dietary tags (scraper1.py lines 297-382) -/

/-- The fixed keyword-to-allergen table, in source (dict insertion) order. -/
def allergen_keywords : List (String × List String) :=
  [ ("milk", ["milk", "dairy", "lactose"]),
    ("eggs", ["egg", "eggs"]),
    ("fish", ["fish"]),
    ("shellfish", ["shellfish", "shrimp", "crab", "lobster"]),
    ("tree_nuts", ["tree nuts", "almonds", "walnuts", "pecans", "cashews"]),
    ("peanuts", ["peanuts", "peanut"]),
    ("wheat", ["wheat", "gluten"]),
    ("soybeans", ["soy", "soybeans", "soybean"]) ]

/-- parse_allergen_text: an allergen is reported when any of its keywords is a
substring of the lowercased text. -/
def parse_allergen_text (text : String) : List String :=
  let tl := lowerStr text
  allergen_keywords.filterMap
    (fun p => if p.2.any (fun kw => strContains tl kw) then some p.1 else none)

/-- soup.find of a div whose class attribute matches the allergen regex
case-insensitively. -/
def findAllergenDiv (p : ItemPage) : Option PageNode :=
  p.nodes.find? (fun n =>
    n.tag = "div" && n.classes.any (fun c => strContains (lowerStr c) "allergen"))

/-- extract_allergens: prefer a dedicated allergen div; otherwise scan the
lowercased page text for the contains: and allergens: sentinels, taking the
text between the first sentinel occurrence and the next period. -/
def extract_allergens (p : ItemPage) : List String :=
  let allergens :=
    match findAllergenDiv p with
    | some d => parse_allergen_text d.text
    | none =>
      let pt := lowerStr p.text
      let fromContains :=
        if strContains pt "contains:" then
          parse_allergen_text (((pySplit ((pySplit pt "contains:").getD 1 "") ".").getD 0 ""))
        else []
      let fromAllergens :=
        if strContains pt "allergens:" then
          parse_allergen_text (((pySplit ((pySplit pt "allergens:").getD 1 "") ".").getD 0 ""))
        else []
      fromContains ++ fromAllergens
  pyDedup allergens

/-- The fixed page-text keyword table for explicit dietary labels. -/
def dietary_indicators : List (String × List String) :=
  [ ("vegetarian", ["vegetarian", "veggie"]),
    ("vegan", ["vegan"]),
    ("halal", ["halal"]),
    ("kosher", ["kosher"]),
    ("organic", ["organic"]),
    ("low_sodium", ["low sodium", "reduced sodium"]),
    ("whole_grain", ["whole grain", "whole wheat"]) ]

/-- extract_dietary_tags: inference from absent allergens, then the direct
page-text keyword scan, deduplicated. -/
def extract_dietary_tags (allergens : List String) (soup : Option ItemPage) : List String :=
  let al := allergens.map lowerStr
  let tags :=
    (if "milk" ∉ al ∧ "eggs" ∉ al ∧ "fish" ∉ al ∧ "shellfish" ∉ al
      then ["potentially_vegan"] else []) ++
    (if "milk" ∉ al then ["dairy_free"] else []) ++
    (if "wheat" ∉ al then ["gluten_free"] else []) ++
    (if "peanuts" ∉ al ∧ "tree_nuts" ∉ al then ["nut_free"] else []) ++
    (match soup with
     | none => []
     | some p =>
       let pt := lowerStr p.text
       dietary_indicators.filterMap
         (fun q => if q.2.any (fun kw => strContains pt kw) then some q.1 else none))
  pyDedup tags

/-- get_nutrition_from_item_page (scraper1.py lines 197-280).  The fetch
outcome is the argument: none models a failed fetch (the function returns the
empty dict), some page the parsed soup. -/
def get_nutrition_from_item_page (fetched : Option ItemPage) : Nutrition :=
  match fetched with
  | none => {}
  | some page =>
    let cs := page.text.toList
    let allergens := extract_allergens page
    { calories := (extractField calories_patterns cs).map (fun v => ⌊v⌋),
      protein := (extractField protein_patterns cs).map round1,
      carbs := (extractField carbs_patterns cs).map round1,
      fat := (extractField fat_patterns cs).map round1,
      fiber := (extractField fiber_patterns cs).map round1,
      sodium := (extractField sodium_patterns cs).map round1,
      sugars := (extractField sugars_patterns cs).map round1,
      allergens := allergens,
      dietary_tags := extract_dietary_tags allergens (some page),
      serving_size := extract_serving_size page.text }

/-! ### Hall discovery (scraper1.py lines 54-102) -/

def base_url : String := "https://foodpro.students.vt.edu"

/-- get_fallback_dining_halls: the static 4-entry list, in source order. -/
def get_fallback_dining_halls : List Hall :=
  [ { name := "D2 at Dietrick Hall", location_num := "15",
      url := base_url ++ "/menus/MenuAtLocation.aspx?locationNum=15&naFlag=1" },
    { name := "Food Court / Hokie Grill at Owens", location_num := "09",
      url := base_url ++ "/menus/MenuAtLocation.aspx?locationNum=09&naFlag=1" },
    { name := "Turner Place at Lavery Hall", location_num := "14",
      url := base_url ++ "/menus/MenuAtLocation.aspx?locationNum=14&naFlag=1" },
    { name := "West End at Cochrane Hall", location_num := "16",
      url := base_url ++ "/menus/MenuAtLocation.aspx?locationNum=16&naFlag=1" } ]

/-- The href filter of find_all: the escaped pattern is a literal substring. -/
def hrefMatchesLocation (href : String) : Bool :=
  strContains href "MenuAtLocation.aspx?locationNum="

/-- re.search of locationNum=([^&]+): at each start position, the literal key
followed by a non-empty greedy run of non-ampersand characters. -/
def searchLocationNum : List Char → Option String
  | [] => none
  | c :: rest =>
    if isPrefixB ("locationNum=".toList) (c :: rest) then
      let cap := ((c :: rest).drop 12).takeWhile (fun d => d ≠ '&')
      if cap ≠ [] then some (String.mk cap) else searchLocationNum rest
    else searchLocationNum rest

/-- The discovery loop body for one matching anchor: skip when the stripped
title or the href is empty or the location number is not found. -/
def parseAnchor (a : Anchor) : Option Hall :=
  let title := pyTrim a.title
  if title ≠ "" ∧ a.href ≠ "" then
    match searchLocationNum a.href.toList with
    | some loc =>
      some { name := title, location_num := loc,
             url := base_url ++ "/menus/" ++ a.href }
    | none => none
  else none

/-- discover_dining_halls: none models a failed directory fetch (or an
exception, both of which return the fallback); an empty parse also falls
back. -/
def discover_dining_halls (fetched : Option (List Anchor)) : List Hall :=
  match fetched with
  | none => get_fallback_dining_halls
  | some anchors =>
    let halls := (anchors.filter (fun a => hrefMatchesLocation a.href)).filterMap parseAnchor
    if halls = [] then get_fallback_dining_halls else halls

/-! ### Meal-period extraction (scraper1.py lines 104-195) -/

/-- The bounded forward scan of find_recipe_identifier: examine at most the
given number of following document nodes for the marker div. -/
def find_recipe_go : Nat → List PageNode → Option PageNode
  | 0, _ => none
  | _ + 1, [] => none
  | fuel + 1, n :: rest =>
    if n.tag = "div" && n.classes.contains "report_recipe_identifier" then some n
    else find_recipe_go fuel rest

/-- find_recipe_identifier: ten find_next hops from the food-item link. -/
def find_recipe_identifier (following : List PageNode) : Option PageNode :=
  find_recipe_go 10 following

/-- The fixed meal-period synonym table with passthrough default. -/
def meal_period_map (mp : String) : String :=
  if mp = "breakfast" then "breakfast"
  else if mp = "lunch" then "lunch"
  else if mp = "dinner" then "dinner"
  else if mp = "brunch" then "brunch"
  else if mp = "late night" then "late_night"
  else mp

/-- extract_meal_period: the last field of the star-delimited record,
lowercased and stripped, normalized through the synonym table; none when the
record has no star or fewer than 4 fields. -/
def extract_meal_period (recipe_text : String) : Option String :=
  if recipe_text.toList.contains '*' then
    let parts := pySplit recipe_text "*"
    if 4 ≤ parts.length then
      let mp := pyTrim (lowerStr (parts.getLastD ""))
      some (meal_period_map mp)
    else none
  else none

/-- A food-item anchor candidate on a hall page: the link text, its href, and
the flattened sequence of document nodes following it. -/
structure FoodLinkCand where
  name : String
  href : String
  following : List PageNode
deriving DecidableEq

/-- Append an item to the ordered meal-period mapping (dict with insertion
order). -/
def insertItem (m : List (String × List FoodItem)) (k : String) (it : FoodItem) :
    List (String × List FoodItem) :=
  if m.any (fun p => p.1 = k) then
    m.map (fun p => if p.1 = k then (p.1, p.2 ++ [it]) else p)
  else m ++ [(k, [it])]

/-- The loop body of get_meal_periods_and_categories for one candidate link:
an empty name, a missing recipe marker, or a record yielding no meal period
drops the item silently. -/
def process_food_link (md : List (String × List FoodItem)) (link : FoodLinkCand) :
    List (String × List FoodItem) :=
  if link.name = "" then md
  else
    match find_recipe_identifier link.following with
    | none => md
    | some rdiv =>
      let recipe_text := rdiv.text
      match extract_meal_period recipe_text with
      | none => md
      | some mp =>
        let full_url :=
          if pyStartsWith link.href "http" then link.href
          else base_url ++ "/menus/" ++ link.href
        insertItem md mp { name := link.name, url := full_url, recipe_id := recipe_text }

/-- get_meal_periods_and_categories: none models a failed hall-page fetch
(empty mapping returned); some gives the candidate food links in document
order. -/
def get_meal_periods_and_categories (page : Option (List FoodLinkCand)) :
    List (String × List FoodItem) :=
  match page with
  | none => []
  | some links => links.foldl process_food_link []

/-! ### HTTP fetcher (scraper1.py lines 36-52) -/

/-- The retry loop of make_request.  outcomes gives each attempt's result
(none = RequestException / non-2xx), remaining is the number of attempts still
allowed after the current one (retries minus attempt).  Returns the result,
the number of attempts made so far plus one, and the sleeps performed, each
being delay times the 1-based attempt number. -/
def mr_go (outcomes : Nat → Option α) (delay : Rat) :
    Nat → Nat → Option α × Nat × List Rat
  | attempt, remaining =>
    match outcomes attempt with
    | some r => (some r, attempt + 1, [])
    | none =>
      match remaining with
      | 0 => (none, attempt + 1, [])
      | rem + 1 =>
        let rest := mr_go outcomes delay (attempt + 1) rem
        (rest.1, rest.2.1, delay * ((attempt + 1 : Nat) : Rat) :: rest.2.2)

/-- make_request with the given retries bound (self.max_retries = 3 by
default): result, total attempts made, and the backoff sleeps. -/
def make_request (outcomes : Nat → Option α) (delay : Rat) (retries : Nat) :
    Option α × Nat × List Rat :=
  mr_go outcomes delay 0 retries

/-! ### Constructor configuration (scraper1.py lines 16-27) -/

/-- Python x or y on an optional int: None and 0 are falsy. -/
def pyIntOr (x : Option Int) (y : Int) : Int :=
  match x with
  | some v => if v = 0 then y else v
  | none => y

/-- self.max_items_per_meal = max_items_per_meal or
int(os.getenv(MAX_ITEMS_PER_MEAL, 10)): the argument if truthy, else the
parsed environment value, else 10. -/
def init_max_items_per_meal (arg : Option Int) (envMaxItems : Option Int) : Int :=
  pyIntOr arg (envMaxItems.getD 10)

/-! ### Aggregator (scraper1.py lines 384-474) -/

/-- The environment of one scrape run: the directory fetch outcome, the
outcome of each hall's meal extraction (error e models an exception with text
str(e) raised inside the per-hall try block), and the nutrition obtained for
each item URL. -/
structure ScrapeEnv where
  dirFetch : Option (List Anchor)
  hallMeals : Hall → Except String (List (String × List FoodItem))
  itemNutrition : String → Nutrition

/-- The per-hall body of scrape_all_data: on an exception the hall is marked
failed with the captured text; otherwise each meal period is truncated to
max_items_per_meal, nutrition is attached to each retained item, and the hall
is marked completed. -/
def process_hall (cfg : ScraperConfig) (env : ScrapeEnv) (hall : Hall) : HallData :=
  match env.hallMeals hall with
  | .error e =>
    { name := hall.name, location_num := hall.location_num, url := hall.url,
      meal_periods := [], scrape_status := "failed", error := some e,
      items_scraped := none }
  | .ok meals =>
    let periods := meals.map (fun pm =>
      let limited := pyTake cfg.max_items_per_meal pm.2
      let withN := limited.map (fun it =>
        { it with nutrition := some (env.itemNutrition it.url) })
      (pm.1, ({ items := withN, total_available := pm.2.length,
                scraped_count := withN.length } : PeriodData)))
    { name := hall.name, location_num := hall.location_num, url := hall.url,
      meal_periods := periods, scrape_status := "completed", error := none,
      items_scraped := some ((periods.map (fun p => p.2.scraped_count)).sum) }

/-- scrape_all_data: discovery, then each hall processed independently, then
summary counters.  (Timestamps and the JSON file write are outside the
embedding; items processed before a mid-hall exception are not separately
counted since the exception point is abstracted to the hall level.) -/
def scrape_all_data (cfg : ScraperConfig) (env : ScrapeEnv) : Snapshot :=
  let halls := discover_dining_halls env.dirFetch
  let hallData := halls.map (process_hall cfg env)
  let succ := (hallData.filter (fun hd => hd.scrape_status == "completed")).length
  { dining_halls := hallData,
    scraper_config := cfg,
    scrape_summary :=
      { total_halls := halls.length,
        successful_halls := succ,
        failed_halls := halls.length - succ,
        total_items_scraped := (hallData.map (fun hd => hd.items_scraped.getD 0)).sum } }

/-! ### AI digest formatting (app1.py lines 366-405) -/

def skip_words : List String := ["cereal", "milk", "juice", "dispenser"]

def protein_words : List String :=
  ["chicken", "beef", "fish", "wrap", "sandwich", "panini", "burger", "egg"]

def carb_words : List String := ["bagel", "bread", "rice", "pasta", "potato"]

/-- The formatted digest line for one item. -/
def food_line (hallName period : String) (item : FoodItem) : String :=
  let nut := item.nutrition
  let cal : Int := (nut.bind (fun n => n.calories)).getD 0
  item.name ++ " (" ++ hallName ++ ", " ++ pyTitle period ++ ") - Cal: " ++
    toString cal ++ ", P: " ++ pyNumRepr (nut.bind (fun n => n.protein)) ++
    "g, C: " ++ pyNumRepr (nut.bind (fun n => n.carbs)) ++
    "g, F: " ++ pyNumRepr (nut.bind (fun n => n.fat)) ++ "g"

inductive FoodBucket where
  | protein
  | carb
  | other
deriving DecidableEq

/-- The classification of one item in format_foods_for_ai: skip low-calorie
items and the cereal/milk/juice/dispenser words, then protein keywords, then
carb keywords, else other. -/
def classify_item (hallName period : String) (item : FoodItem) :
    Option (FoodBucket × String) :=
  let cal : Int := (item.nutrition.bind (fun n => n.calories)).getD 0
  if cal < 50 then none
  else
    let nameLower := lowerStr item.name
    let line := food_line hallName period item
    if skip_words.any (fun w => strContains nameLower w) then none
    else if protein_words.any (fun w => strContains nameLower w) then some (.protein, line)
    else if carb_words.any (fun w => strContains nameLower w) then some (.carb, line)
    else some (.other, line)

/-- One step of the innermost item loop, appending the line to its bucket. -/
def ff_item_step (hallName period : String)
    (acc : List String × List String × List String) (item : FoodItem) :
    List String × List String × List String :=
  match classify_item hallName period item with
  | none => acc
  | some (.protein, l) => (acc.1 ++ [l], acc.2.1, acc.2.2)
  | some (.carb, l) => (acc.1, acc.2.1 ++ [l], acc.2.2)
  | some (.other, l) => (acc.1, acc.2.1, acc.2.2 ++ [l])

def ff_items (hallName period : String)
    (acc : List String × List String × List String) (items : List FoodItem) :
    List String × List String × List String :=
  items.foldl (ff_item_step hallName period) acc

def ff_periods (hallName : String)
    (acc : List String × List String × List String)
    (periods : List (String × PeriodData)) :
    List String × List String × List String :=
  periods.foldl (fun a pp => ff_items hallName pp.1 a pp.2.items) acc

/-- The three accumulated bucket lists of format_foods_for_ai, built by the
nested loops over halls, meal periods and items. -/
def format_foods_accum (md : Snapshot) : List String × List String × List String :=
  md.dining_halls.foldl (fun a hall => ff_periods hall.name a hall.meal_periods)
    ([], [], [])

/-- format_foods_for_ai: proteins first capped at 80, then carbs capped at 40,
then everything else capped at 30, newline-joined. -/
def format_foods_for_ai (md : Snapshot) : String :=
  let acc := format_foods_accum md
  joinLines (acc.1.take 80 ++ acc.2.1.take 40 ++ acc.2.2.take 30)

/-- The digest line of one item when it lands in the given bucket. -/
def pick_bucket (b : FoodBucket) (hallName period : String) (item : FoodItem) :
    Option String :=
  match classify_item hallName period item with
  | some (b2, l) => if b2 = b then some l else none
  | none => none

/-- Characterization of one bucket's lines: the flattened traversal of the
snapshot in encounter order, filtered to the bucket. -/
def bucket_lines (b : FoodBucket) (md : Snapshot) : List String :=
  md.dining_halls.flatMap (fun hall =>
    hall.meal_periods.flatMap (fun pp =>
      pp.2.items.filterMap (pick_bucket b hall.name pp.1)))

/-! ### Concrete pages and environments used by witnesses -/

/-- The item page of end-to-end scenario B. -/
def scenario_nutrition_page : ItemPage :=
  { nodes := [], text := "Calories: 350\nProtein: 20g" }

/-- The item page of end-to-end scenario C. -/
def scenario_allergen_page : ItemPage :=
  { nodes := [], text := "Contains: milk, wheat." }

/-- An item page carrying no allergen information at all. -/
def no_allergen_page : ItemPage :=
  { nodes := [], text := "plain rice" }

def w1cfg : ScraperConfig := { max_items_per_meal := 10, request_delay := 1 }

def w1hall : Hall :=
  { name := "D2 at Dietrick Hall", location_num := "15",
    url := base_url ++ "/menus/MenuAtLocation.aspx?locationNum=15&naFlag=1" }

def w1hallB : Hall :=
  { name := "Food Court / Hokie Grill at Owens", location_num := "09",
    url := base_url ++ "/menus/MenuAtLocation.aspx?locationNum=09&naFlag=1" }

/-- A run in which the directory fetch fails and processing the first fallback
hall raises an exception with text boom while the others succeed with no
items. -/
def w1env : ScrapeEnv :=
  { dirFetch := none,
    hallMeals := fun h =>
      if h.name = "D2 at Dietrick Hall" then .error "boom" else .ok [],
    itemNutrition := fun _ => {} }

def w6cfg : ScraperConfig := { max_items_per_meal := 2, request_delay := 0 }

def w6hall : Hall := { name := "Test Hall", location_num := "1", url := "u" }

def w6items : List FoodItem :=
  [ { name := "Eggs", url := "u1", recipe_id := "r1" },
    { name := "Oatmeal", url := "u2", recipe_id := "r2" },
    { name := "Toast", url := "u3", recipe_id := "r3" } ]

/-- A run in which every hall yields one lunch period with three items. -/
def w6env : ScrapeEnv :=
  { dirFetch := none,
    hallMeals := fun _ => .ok [("lunch", w6items)],
    itemNutrition := fun _ => {} }

/-- A one-hall snapshot with a single high-calorie chicken item. -/
def w8snap : Snapshot :=
  { dining_halls :=
      [ { name := "Test Hall", location_num := "1", url := "u",
          meal_periods :=
            [ ("lunch",
               { items := [ { name := "Chicken Bowl", url := "u1", recipe_id := "r1",
                              nutrition := some { calories := some 400 } } ],
                 total_available := 1, scraped_count := 1 }) ],
          scrape_status := "completed", error := none, items_scraped := some 1 } ],
    scraper_config := { max_items_per_meal := 10, request_delay := 1 },
    scrape_summary :=
      { total_halls := 1, successful_halls := 1, failed_halls := 0,
        total_items_scraped := 1 } }

/-! ### Helper lemmas -/

theorem mem_pyDedupAux (x : String) :
    ∀ (l acc : List String), x ∈ pyDedupAux l acc ↔ x ∈ acc ∨ x ∈ l := by
  intro l
  induction l with
  | nil => intro acc; simp [pyDedupAux]
  | cons y ys ih =>
    intro acc
    rw [pyDedupAux, ih]
    by_cases hy : y ∈ acc
    · simp only [if_pos hy]
      constructor
      · rintro (h | h)
        · exact Or.inl h
        · exact Or.inr (List.mem_cons_of_mem _ h)
      · rintro (h | h)
        · exact Or.inl h
        · rcases List.mem_cons.mp h with h | h
          · exact Or.inl (h ▸ hy)
          · exact Or.inr h
    · simp only [if_neg hy, List.mem_append, List.mem_singleton, List.mem_cons]
      tauto

theorem mem_pyDedup (x : String) (l : List String) : x ∈ pyDedup l ↔ x ∈ l := by
  rw [pyDedup, mem_pyDedupAux]
  simp

/-- The bounded scan returns none when no node among the first fuel following
nodes is the recipe-identifier marker. -/
theorem find_recipe_go_eq_none :
    ∀ (fuel : Nat) (nodes : List PageNode),
      (∀ n ∈ nodes.take fuel,
        ¬ (n.tag = "div" ∧ "report_recipe_identifier" ∈ n.classes)) →
      find_recipe_go fuel nodes = none := by
  intro fuel
  induction fuel with
  | zero => intro nodes _; rfl
  | succ f ih =>
    intro nodes h
    cases nodes with
    | nil => rfl
    | cons n rest =>
      simp only [List.take_succ_cons] at h
      have hn := h n (by simp)
      rw [find_recipe_go]
      cases hb : (n.tag = "div" && n.classes.contains "report_recipe_identifier") with
      | true =>
        exfalso
        apply hn
        simpa only [Bool.and_eq_true, decide_eq_true_eq, List.contains,
          List.elem_eq_mem] using hb
      | false =>
        simp only [Bool.false_eq_true, if_false]
        exact ih rest (fun m hm => h m (List.mem_cons_of_mem _ hm))

theorem firstSearch_cons_some (p : List PAtom) (rest : List (List PAtom))
    (cs : List Char) (s : String) (h : reSearch p cs = some s) :
    firstSearch (p :: rest) cs = some s := by
  rw [firstSearch, h]

theorem firstSearch_eq_none (cs : List Char) :
    ∀ pats : List (List PAtom),
      (∀ p ∈ pats, reSearch p cs = none) → firstSearch pats cs = none := by
  intro pats
  induction pats with
  | nil => intro _; rfl
  | cons p rest ih =>
    intro h
    rw [firstSearch, h p (by simp)]
    exact ih (fun q hq => h q (List.mem_cons_of_mem _ hq))

theorem mr_go_attempts_le {α : Type} (outcomes : Nat → Option α) (delay : Rat) :
    ∀ (remaining attempt : Nat),
      (mr_go outcomes delay attempt remaining).2.1 ≤ attempt + remaining + 1 := by
  intro remaining
  induction remaining with
  | zero =>
    intro attempt
    rw [mr_go]
    cases outcomes attempt <;> simp
  | succ rem ih =>
    intro attempt
    rw [mr_go]
    cases outcomes attempt with
    | some r => simp
    | none =>
      have := ih (attempt + 1)
      simp only []
      omega

theorem mr_go_all_fail {α : Type} (outcomes : Nat → Option α) (delay : Rat)
    (h : ∀ i, outcomes i = none) :
    ∀ (remaining attempt : Nat),
      mr_go outcomes delay attempt remaining
        = (none, attempt + remaining + 1,
           (List.range remaining).map (fun j => delay * ((attempt + 1 + j : Nat) : Rat))) := by
  intro remaining
  induction remaining with
  | zero =>
    intro attempt
    rw [mr_go, h]
    simp
  | succ rem ih =>
    intro attempt
    rw [mr_go, h]
    simp only []
    rw [ih (attempt + 1)]
    refine Prod.ext rfl (Prod.ext (by simp; omega) ?_)
    simp only [List.range_succ_eq_map, List.map_cons, List.map_map]
    refine List.cons_eq_cons.mpr ⟨by norm_num, ?_⟩
    apply List.map_congr_left
    intro j _
    have : attempt + 1 + 1 + j = attempt + 1 + Nat.succ j := by omega
    simp [Function.comp, this]

theorem parseDec_digits (s : String) (n : Nat)
    (h1 : pySplit s "." = [s]) (h2 : digitsVal s.toList = n) :
    parseDec s = (n : Rat) := by
  rw [parseDec, h1]
  show ((digitsVal s.toList : Nat) : Rat) = (n : Rat)
  rw [h2]

/-! ### Claim theorems -/

/-- C2: if the directory-page fetch fails, and likewise if the parsed page
yields zero halls, discover_dining_halls returns exactly the 4-entry static
fallback list, in fixed order, with the hardcoded names, location ids and
URLs. -/
theorem discover_fallback_exact :
    discover_dining_halls none = get_fallback_dining_halls ∧
    (∀ anchors : List Anchor,
      (anchors.filter (fun a => hrefMatchesLocation a.href)).filterMap parseAnchor = [] →
      discover_dining_halls (some anchors) = get_fallback_dining_halls) ∧
    get_fallback_dining_halls =
      [ { name := "D2 at Dietrick Hall", location_num := "15",
          url := "https://foodpro.students.vt.edu/menus/MenuAtLocation.aspx?locationNum=15&naFlag=1" },
        { name := "Food Court / Hokie Grill at Owens", location_num := "09",
          url := "https://foodpro.students.vt.edu/menus/MenuAtLocation.aspx?locationNum=09&naFlag=1" },
        { name := "Turner Place at Lavery Hall", location_num := "14",
          url := "https://foodpro.students.vt.edu/menus/MenuAtLocation.aspx?locationNum=14&naFlag=1" },
        { name := "West End at Cochrane Hall", location_num := "16",
          url := "https://foodpro.students.vt.edu/menus/MenuAtLocation.aspx?locationNum=16&naFlag=1" } ] := by
  refine ⟨rfl, ?_, by decide⟩
  intro anchors h
  simp [discover_dining_halls, h]

/-- Witness for C2: an anchor list whose parse yields zero halls falls back. -/
theorem discover_fallback_exact_witness :
    discover_dining_halls (some []) = get_fallback_dining_halls :=
  discover_fallback_exact.2.1 [] (by decide)

/-- C3: a recipe text with no star or fewer than 4 star-delimited fields
yields no meal period; otherwise the last field, lowercased and stripped, is
normalized through the fixed synonym table with unrecognized labels passed
through; and a food-item anchor whose marker is not among the next 10 nodes,
or whose record yields no meal period, is dropped without touching the meal
mapping. -/
theorem meal_period_drop_rules :
    (∀ t : String, t.toList.contains '*' = false → extract_meal_period t = none) ∧
    (∀ t : String, (pySplit t "*").length < 4 → extract_meal_period t = none) ∧
    (∀ t : String, t.toList.contains '*' = true → 4 ≤ (pySplit t "*").length →
      extract_meal_period t
        = some (meal_period_map (pyTrim (lowerStr ((pySplit t "*").getLastD ""))))) ∧
    meal_period_map "breakfast" = "breakfast" ∧
    meal_period_map "lunch" = "lunch" ∧
    meal_period_map "dinner" = "dinner" ∧
    meal_period_map "brunch" = "brunch" ∧
    meal_period_map "late night" = "late_night" ∧
    (∀ s : String, s ≠ "breakfast" → s ≠ "lunch" → s ≠ "dinner" → s ≠ "brunch" →
      s ≠ "late night" → meal_period_map s = s) ∧
    (∀ nodes : List PageNode,
      (∀ n ∈ nodes.take 10,
        ¬ (n.tag = "div" ∧ "report_recipe_identifier" ∈ n.classes)) →
      find_recipe_identifier nodes = none) ∧
    (∀ (md : List (String × List FoodItem)) (link : FoodLinkCand),
      find_recipe_identifier link.following = none → process_food_link md link = md) ∧
    (∀ (md : List (String × List FoodItem)) (link : FoodLinkCand) (rdiv : PageNode),
      find_recipe_identifier link.following = some rdiv →
      extract_meal_period rdiv.text = none → process_food_link md link = md) := by
  refine ⟨?_, ?_, ?_, rfl, rfl, rfl, rfl, rfl, ?_, ?_, ?_, ?_⟩
  · intro t h
    rw [extract_meal_period, h]
    simp
  · intro t h
    rw [extract_meal_period]
    by_cases hc : t.toList.contains '*'
    · rw [hc]
      simp only [if_true]
      rw [if_neg (by omega)]
    · rw [Bool.not_eq_true] at hc
      rw [hc]
      simp
  · intro t h1 h2
    rw [extract_meal_period, h1]
    simp only [if_true]
    rw [if_pos h2]
  · intro s h1 h2 h3 h4 h5
    rw [meal_period_map, if_neg h1, if_neg h2, if_neg h3, if_neg h4, if_neg h5]
  · intro nodes h
    exact find_recipe_go_eq_none 10 nodes h
  · intro md link h
    rw [process_food_link]
    by_cases hn : link.name = ""
    · rw [if_pos hn]
    · rw [if_neg hn, h]
  · intro md link rdiv h1 h2
    rw [process_food_link]
    by_cases hn : link.name = ""
    · rw [if_pos hn]
    · rw [if_neg hn, h1]
      simp only [h2]

/-- Witness for C3: concrete dropped and normalized records, and a marker
beyond the 10-hop bound. -/
theorem meal_period_drop_rules_witness :
    extract_meal_period "nodelims" = none ∧
    extract_meal_period "a*b*c" = none ∧
    extract_meal_period "ID*X*Y*Dinner" = some "dinner" ∧
    extract_meal_period "ID*X*Y*Tapas" = some "tapas" ∧
    find_recipe_identifier (List.replicate 10 ({ tag := "span", classes := [], text := "" } : PageNode)
      ++ [{ tag := "div", classes := ["report_recipe_identifier"], text := "r" }]) = none := by
  refine ⟨meal_period_drop_rules.1 "nodelims" (by decide),
    meal_period_drop_rules.2.1 "a*b*c" (by decide), ?_, ?_,
    meal_period_drop_rules.2.2.2.2.2.2.2.2.2.1 _ (by decide)⟩
  · rw [meal_period_drop_rules.2.2.1 "ID*X*Y*Dinner" (by decide) (by decide)]
    decide
  · rw [meal_period_drop_rules.2.2.1 "ID*X*Y*Tapas" (by decide) (by decide)]
    decide

/-- C5: on the page whose allergen text is the sentence Contains: milk,
wheat. the extracted allergen set is exactly milk and wheat, and the derived
dietary tags contain nut_free but neither gluten_free nor dairy_free. -/
theorem allergen_scenario_milk_wheat :
    (extract_allergens scenario_allergen_page).toFinset = {"milk", "wheat"} ∧
    "nut_free" ∈ extract_dietary_tags (extract_allergens scenario_allergen_page)
      (some scenario_allergen_page) ∧
    "gluten_free" ∉ extract_dietary_tags (extract_allergens scenario_allergen_page)
      (some scenario_allergen_page) ∧
    "dairy_free" ∉ extract_dietary_tags (extract_allergens scenario_allergen_page)
      (some scenario_allergen_page) := by
  exact ⟨by decide, by decide, by decide, by decide⟩

/-- C9: a page with no allergen information (empty allergen list) derives the
maximal allergen-inferred tag set: potentially_vegan, dairy_free, gluten_free
and nut_free are all present. -/
theorem empty_allergens_full_tags (page : ItemPage)
    (h : extract_allergens page = []) :
    "potentially_vegan" ∈ extract_dietary_tags (extract_allergens page) (some page) ∧
    "dairy_free" ∈ extract_dietary_tags (extract_allergens page) (some page) ∧
    "gluten_free" ∈ extract_dietary_tags (extract_allergens page) (some page) ∧
    "nut_free" ∈ extract_dietary_tags (extract_allergens page) (some page) := by
  rw [h]
  rw [extract_dietary_tags]
  simp only [List.map_nil, List.not_mem_nil, not_false_eq_true, and_self, if_true]
  refine ⟨?_, ?_, ?_, ?_⟩ <;> rw [mem_pyDedup] <;> simp

/-- Witness for C9: a plain page yields the empty allergen list and all four
inferred tags. -/
theorem empty_allergens_full_tags_witness :
    "potentially_vegan" ∈ extract_dietary_tags (extract_allergens no_allergen_page)
      (some no_allergen_page) ∧
    "dairy_free" ∈ extract_dietary_tags (extract_allergens no_allergen_page)
      (some no_allergen_page) ∧
    "gluten_free" ∈ extract_dietary_tags (extract_allergens no_allergen_page)
      (some no_allergen_page) ∧
    "nut_free" ∈ extract_dietary_tags (extract_allergens no_allergen_page)
      (some no_allergen_page) :=
  empty_allergens_full_tags no_allergen_page (by decide)

/-- C7: make_request with the default bound of 3 retries makes at most 4
attempts, sleeps delay times the 1-based attempt number before each retry,
and when every attempt fails it returns none (no exception can escape, the
failure signal being the none value). -/
theorem make_request_retry_behavior {α : Type} (outcomes : Nat → Option α) (delay : Rat) :
    (make_request outcomes delay 3).2.1 ≤ 4 ∧
    (∀ retries : Nat, (make_request outcomes delay retries).2.1 ≤ retries + 1) ∧
    ((∀ i, outcomes i = none) →
      (make_request outcomes delay 3).1 = none ∧
      (make_request outcomes delay 3).2.2 = [delay * 1, delay * 2, delay * 3]) := by
  refine ⟨mr_go_attempts_le outcomes delay 3 0, ?_, ?_⟩
  · intro retries
    have := mr_go_attempts_le outcomes delay retries 0
    rw [make_request]
    omega
  · intro h
    rw [make_request, mr_go_all_fail outcomes delay h 3 0]
    refine ⟨rfl, ?_⟩
    norm_num [List.range_succ]

/-- Witness for C7: with every attempt failing and delay 2, the result is none
and the three backoff sleeps are 2, 4 and 6. -/
theorem make_request_retry_behavior_witness :
    (make_request (fun _ => (none : Option Nat)) 2 3).1 = none ∧
    (make_request (fun _ => (none : Option Nat)) 2 3).2.2 = [2 * 1, 2 * 2, 2 * 3] :=
  (make_request_retry_behavior (fun _ => (none : Option Nat)) 2).2.2 (fun _ => rfl)

/-- C1: the snapshot has exactly one record per discovered (or fallback) hall;
a hall whose processing raises an exception gets status failed with the
captured error text (non-empty whenever the exception text is), a hall whose
processing completes gets status completed, and either way every other hall
still gets its own record — one hall's failure never aborts the scrape. -/
theorem scrape_all_one_record_per_hall (cfg : ScraperConfig) (env : ScrapeEnv) :
    (scrape_all_data cfg env).dining_halls.length
      = (discover_dining_halls env.dirFetch).length ∧
    ∀ (i : Nat) (hall : Hall), (discover_dining_halls env.dirFetch)[i]? = some hall →
      (scrape_all_data cfg env).dining_halls[i]? = some (process_hall cfg env hall) ∧
      (∀ e : String, env.hallMeals hall = .error e →
        (process_hall cfg env hall).scrape_status = "failed" ∧
        (process_hall cfg env hall).error = some e ∧
        (e ≠ "" → (process_hall cfg env hall).error.getD "" ≠ "")) ∧
      (∀ meals, env.hallMeals hall = .ok meals →
        (process_hall cfg env hall).scrape_status = "completed" ∧
        (process_hall cfg env hall).error = none) := by
  refine ⟨by simp [scrape_all_data], ?_⟩
  intro i hall hi
  refine ⟨?_, ?_, ?_⟩
  · simp [scrape_all_data, List.getElem?_map, hi]
  · intro e he
    refine ⟨?_, ?_, ?_⟩ <;> simp [process_hall, he]
  · intro meals hm
    constructor <;> simp [process_hall, hm]

/-- Witness for C1: under w1env the first fallback hall fails with text boom,
the second completes, and both keep their own snapshot record. -/
theorem scrape_all_one_record_per_hall_witness :
    (scrape_all_data w1cfg w1env).dining_halls[0]? = some (process_hall w1cfg w1env w1hall) ∧
    (process_hall w1cfg w1env w1hall).scrape_status = "failed" ∧
    (process_hall w1cfg w1env w1hall).error = some "boom" ∧
    (scrape_all_data w1cfg w1env).dining_halls[1]? = some (process_hall w1cfg w1env w1hallB) ∧
    (process_hall w1cfg w1env w1hallB).scrape_status = "completed" := by
  have h0 := (scrape_all_one_record_per_hall w1cfg w1env).2 0 w1hall (by decide)
  have h1 := (scrape_all_one_record_per_hall w1cfg w1env).2 1 w1hallB (by decide)
  have he := h0.2.1 "boom" rfl
  have hc := h1.2.2 [] rfl
  exact ⟨h0.1, he.1, he.2.1, h1.1, hc.1⟩

/-- C6: every meal period kept in the snapshot holds at most maxItemsPerMeal
items, those items are exactly the prefix of the extracted item list in
original encounter order with nutrition attached, and the period record
stores the total items initially observed and the count actually processed. -/
theorem meal_period_truncation (cfg : ScraperConfig) (env : ScrapeEnv)
    (hmax : 1 ≤ cfg.max_items_per_meal) :
    (∀ hd ∈ (scrape_all_data cfg env).dining_halls,
      ∃ hall, hd = process_hall cfg env hall) ∧
    (∀ (hall : Hall) (meals : List (String × List FoodItem)),
      env.hallMeals hall = .ok meals →
      (process_hall cfg env hall).meal_periods.length = meals.length ∧
      ∀ (j : Nat) (mp : String) (items : List FoodItem),
        meals[j]? = some (mp, items) →
        ∃ pd : PeriodData,
          (process_hall cfg env hall).meal_periods[j]? = some (mp, pd) ∧
          (pd.items.length : Int) ≤ cfg.max_items_per_meal ∧
          pd.items = (items.take cfg.max_items_per_meal.toNat).map
            (fun it => { it with nutrition := some (env.itemNutrition it.url) }) ∧
          pd.items.map (fun it => it.name)
            = (items.map (fun it => it.name)).take cfg.max_items_per_meal.toNat ∧
          pd.total_available = items.length ∧
          pd.scraped_count = pd.items.length) := by
  constructor
  · intro hd hmem
    simp only [scrape_all_data, List.mem_map] at hmem
    obtain ⟨hall, _, hh⟩ := hmem
    exact ⟨hall, hh.symm⟩
  · intro hall meals hm
    rw [process_hall, hm]
    constructor
    · simp
    · intro j mp items hj
      have h0 : (0 : Int) ≤ cfg.max_items_per_meal := by omega
      rw [List.getElem?_map, hj]
      refine ⟨_, rfl, ?_, ?_, ?_, rfl, ?_⟩
      · rw [pyTake, if_pos h0]
        simp only [List.length_map, List.length_take]
        have := Int.toNat_of_nonneg h0
        omega
      · rw [pyTake, if_pos h0]
      · rw [pyTake, if_pos h0]
        simp only [List.map_take, List.map_map]
        congr 1
      · simp

/-- Witness for C6: with cap 2 and three extracted lunch items, the period
keeps the first two in order and records counts 3 and 2. -/
theorem meal_period_truncation_witness :
    ∃ pd : PeriodData,
      (process_hall w6cfg w6env w6hall).meal_periods[0]? = some ("lunch", pd) ∧
      (pd.items.length : Int) ≤ w6cfg.max_items_per_meal ∧
      pd.items = (w6items.take w6cfg.max_items_per_meal.toNat).map
        (fun it => { it with nutrition := some (w6env.itemNutrition it.url) }) ∧
      pd.items.map (fun it => it.name)
        = (w6items.map (fun it => it.name)).take w6cfg.max_items_per_meal.toNat ∧
      pd.total_available = w6items.length ∧
      pd.scraped_count = pd.items.length :=
  ((meal_period_truncation w6cfg w6env (by decide)).2 w6hall [("lunch", w6items)] rfl).2
    0 "lunch" w6items rfl

/-- C4: for each nutrient field the ordered pattern list is tried in sequence
and the first match wins with no further patterns tried; a field with no
matching pattern is absent, not zero; calories parse as an integer and the
other fields as a decimal rounded to one place; and on the scenario page
containing Calories: 350 and Protein: 20g the result has calories 350,
protein 20.0 and every other macro field absent. -/
theorem nutrition_pattern_rules :
    (∀ (p : List PAtom) (rest : List (List PAtom)) (cs : List Char) (s : String),
      reSearch p cs = some s → firstSearch (p :: rest) cs = some s) ∧
    (∀ (pats : List (List PAtom)) (cs : List Char),
      (∀ p ∈ pats, reSearch p cs = none) → firstSearch pats cs = none) ∧
    (∀ (pats : List (List PAtom)) (cs : List Char) (s : String),
      firstSearch pats cs = some s → extractField pats cs = some (parseDec s)) ∧
    (∀ (pats : List (List PAtom)) (cs : List Char),
      firstSearch pats cs = none → extractField pats cs = none) ∧
    ((get_nutrition_from_item_page (some scenario_nutrition_page)).calories = some 350 ∧
     (get_nutrition_from_item_page (some scenario_nutrition_page)).protein = some 20 ∧
     (get_nutrition_from_item_page (some scenario_nutrition_page)).carbs = none ∧
     (get_nutrition_from_item_page (some scenario_nutrition_page)).fat = none ∧
     (get_nutrition_from_item_page (some scenario_nutrition_page)).fiber = none ∧
     (get_nutrition_from_item_page (some scenario_nutrition_page)).sodium = none ∧
     (get_nutrition_from_item_page (some scenario_nutrition_page)).sugars = none) := by
  refine ⟨firstSearch_cons_some, fun pats cs h => firstSearch_eq_none cs pats h, ?_, ?_, ?_⟩
  · intro pats cs s h
    rw [extractField, h]
    rfl
  · intro pats cs h
    rw [extractField, h]
    rfl
  · have hcal : firstSearch calories_patterns scenario_nutrition_page.text.toList
        = some "350" := by decide
    have hpro : firstSearch protein_patterns scenario_nutrition_page.text.toList
        = some "20" := by decide
    refine ⟨?_, ?_, by decide, by decide, by decide, by decide, by decide⟩
    · simp only [get_nutrition_from_item_page, extractField, hcal, Option.map_some']
      rw [parseDec_digits "350" 350 rfl rfl]
      norm_num
    · simp only [get_nutrition_from_item_page, extractField, hpro, Option.map_some']
      rw [parseDec_digits "20" 20 rfl rfl]
      norm_num [round1]

/-- Witness for C4: the abbreviation pattern matching a concrete page text
through the first-match rule. -/
theorem nutrition_pattern_rules_witness :
    firstSearch [plits "cal" ++ [pOptColon, pWsp, natGrp]] "cal: 7".toList = some "7" :=
  nutrition_pattern_rules.1 (plits "cal" ++ [pOptColon, pWsp, natGrp]) []
    ("cal: 7".toList) "7" (by decide)

theorem ff_items_eq (hallName period : String)
    (acc : List String × List String × List String) (items : List FoodItem) :
    ff_items hallName period acc items =
      (acc.1 ++ items.filterMap (pick_bucket .protein hallName period),
       acc.2.1 ++ items.filterMap (pick_bucket .carb hallName period),
       acc.2.2 ++ items.filterMap (pick_bucket .other hallName period)) := by
  induction items generalizing acc with
  | nil => simp [ff_items]
  | cons it rest ih =>
    show ff_items hallName period (ff_item_step hallName period acc it) rest = _
    rw [ih]
    cases h : classify_item hallName period it with
    | none => simp [ff_item_step, pick_bucket, h]
    | some bl =>
      obtain ⟨b, l⟩ := bl
      cases b <;> simp [ff_item_step, pick_bucket, h, List.append_assoc]

theorem ff_periods_eq (hallName : String)
    (acc : List String × List String × List String)
    (periods : List (String × PeriodData)) :
    ff_periods hallName acc periods =
      (acc.1 ++ periods.flatMap
        (fun pp => pp.2.items.filterMap (pick_bucket .protein hallName pp.1)),
       acc.2.1 ++ periods.flatMap
        (fun pp => pp.2.items.filterMap (pick_bucket .carb hallName pp.1)),
       acc.2.2 ++ periods.flatMap
        (fun pp => pp.2.items.filterMap (pick_bucket .other hallName pp.1))) := by
  induction periods generalizing acc with
  | nil => simp [ff_periods]
  | cons pp rest ih =>
    show ff_periods hallName (ff_items hallName pp.1 acc pp.2.items) rest = _
    rw [ih, ff_items_eq]
    simp [List.flatMap_cons, List.append_assoc]

theorem ff_halls_eq (acc : List String × List String × List String)
    (halls : List HallData) :
    halls.foldl (fun a hall => ff_periods hall.name a hall.meal_periods) acc =
      (acc.1 ++ halls.flatMap (fun hall => hall.meal_periods.flatMap
        (fun pp => pp.2.items.filterMap (pick_bucket .protein hall.name pp.1))),
       acc.2.1 ++ halls.flatMap (fun hall => hall.meal_periods.flatMap
        (fun pp => pp.2.items.filterMap (pick_bucket .carb hall.name pp.1))),
       acc.2.2 ++ halls.flatMap (fun hall => hall.meal_periods.flatMap
        (fun pp => pp.2.items.filterMap (pick_bucket .other hall.name pp.1)))) := by
  induction halls generalizing acc with
  | nil => simp
  | cons hall rest ih =>
    rw [List.foldl_cons, ih, ff_periods_eq]
    simp [List.flatMap_cons, List.append_assoc]

theorem format_foods_accum_eq (md : Snapshot) :
    format_foods_accum md
      = (bucket_lines .protein md, bucket_lines .carb md, bucket_lines .other md) := by
  rw [format_foods_accum, ff_halls_eq]
  simp [bucket_lines]

/-- C8: the AI-prompt digest is the selected protein lines first, then the
carb lines, then the other lines, in snapshot encounter order, capped at 80
plus 40 plus 30 so the digest never exceeds 150 lines. -/
theorem format_foods_order_and_cap (md : Snapshot) :
    format_foods_for_ai md = joinLines
      ((bucket_lines .protein md).take 80 ++ (bucket_lines .carb md).take 40 ++
        (bucket_lines .other md).take 30) ∧
    ((bucket_lines .protein md).take 80 ++ (bucket_lines .carb md).take 40 ++
      (bucket_lines .other md).take 30).length ≤ 150 := by
  constructor
  · simp only [format_foods_for_ai, format_foods_accum_eq]
  · simp only [List.length_append, List.length_take]
    omega

/-- Witness for C8: the cap and ordering instantiated on a concrete
snapshot. -/
theorem format_foods_order_and_cap_witness :
    format_foods_for_ai w8snap = joinLines
      ((bucket_lines .protein w8snap).take 80 ++ (bucket_lines .carb w8snap).take 40 ++
        (bucket_lines .other w8snap).take 30) ∧
    ((bucket_lines .protein w8snap).take 80 ++ (bucket_lines .carb w8snap).take 40 ++
      (bucket_lines .other w8snap).take 30).length ≤ 150 :=
  format_foods_order_and_cap w8snap

/-- C10: constructing the scraper with max_items_per_meal = 0 does not keep 0:
the falsy-or fallback makes the cap the parsed MAX_ITEMS_PER_MEAL environment
value, or 10 when the variable is absent. -/
theorem init_zero_max_items_fallback :
    (∀ envMaxItems : Option Int,
      init_max_items_per_meal (some 0) envMaxItems = envMaxItems.getD 10) ∧
    init_max_items_per_meal (some 0) none = 10 := by
  refine ⟨?_, rfl⟩
  intro e
  rw [init_max_items_per_meal, pyIntOr]
  simp

/-- Witness for C10: a concrete environment value replaces the 0 argument. -/
theorem init_zero_max_items_fallback_witness :
    init_max_items_per_meal (some 0) (some 7) = (some (7 : Int)).getD 10 :=
  init_zero_max_items_fallback.1 (some 7)

end VTDining
